/-
Verification of the PersonaVault authentication/settings core.

Shallow embedding of the Python sources:
  - backend/auth.py                 (hash_password, verify_password, validate_email,
                                     authenticate_user)
  - backend/app.py_30012025.py      (DataVault.encrypt/decrypt, register, login,
                                     logout, handle_ai_settings POST, cleanup_job)
  - backend/ollama_service.py       (validate_payload, save_ai_settings)

Conventions of the embedding:
  - timestamps are natural numbers (seconds); `datetime.now()` becomes an explicit
    `now` parameter; `SESSION_LIFETIME` (1 hour) is the constant 3600;
  - `uuid.uuid4()` freshness is modelled by a monotone counter `nextSessionId`
    carried in the database state (fresh identifiers are never reused);
  - SQL tables become Lean lists of row structures; `SELECT ... WHERE` becomes
    `List.find?` / `List.filter`, `DELETE` becomes `List.filter` with the negated
    condition, `UPDATE` becomes `List.map`;
  - a nullable TEXT column is an `Option`; Python falsiness of a string value
    (`not s`) is emptiness;
  - REAL columns (temperature, top_p, penalties) are floating point and are not
    modelled; no operation verified here reads them.
-/
import Mathlib

namespace PersonaVault

/-! ## Credential store (auth.py)

`bcrypt.hashpw` / `bcrypt.checkpw` are an external library (not part of this
repository).  Modelled from the spec: a slow salted one-way hash whose salt is
embedded in the output and whose verification recovers the comparison; the hash
value is an opaque pairing of the salt and the password, and `checkpw` compares
the stored password component.  A stored `password_hash` TEXT value can also be
empty or malformed (not a bcrypt string), on which `bcrypt.checkpw` raises; the
constructors `empty` and `garbage` model those two cases. -/

inductive StoredHash where
  | empty : StoredHash
  | garbage (s : String) : StoredHash
  | bcryptHash (salt : Nat) (pw : String) : StoredHash
deriving DecidableEq, Repr

/-- auth.py `hash_password`: `bcrypt.hashpw(password.encode, bcrypt.gensalt())`;
the per-call salt is passed explicitly. -/
def hash_password (salt : Nat) (password : String) : StoredHash :=
  .bcryptHash salt password

/-- auth.py `verify_password`: returns `False` when the password or the stored
hash is falsy (empty); `bcrypt.checkpw` on a malformed hash raises and the
`except` clause returns `False`; otherwise the bcrypt comparison.  Total: the
Python function never lets an exception escape. -/
def verify_password (password : String) (password_hash : StoredHash) : Bool :=
  if password = "" ∨ password_hash = .empty then
    false
  else
    match password_hash with
    | .empty => false
    | .garbage _ => false
    | .bcryptHash _ pw => pw == password

/-- Helper for auth.py `validate_email`: does `r` start with `[^@]+ "." [^@]+`?
(the character class `[^@]` admits any character other than `@`, dots
included, and `re.match` only anchors at the start). -/
def emailTailOk (r : List Char) : Bool :=
  (List.range r.length).any (fun i =>
    decide (1 ≤ i) &&
    (r.take i).all (fun c => c != '@') &&
    (r.get? i == some '.') &&
    (match r.get? (i + 1) with
     | some c => c != '@'
     | none => false))

/-- auth.py `validate_email`: `re.match(r"[^@]+@[^@]+\.[^@]+", email)`; the
leading `[^@]+` forces the matched `@` to be the first `@` of the string,
preceded by at least one character. -/
def validate_email (email : String) : Bool :=
  match email.data.findIdx? (fun c => c == '@') with
  | none => false
  | some k => decide (1 ≤ k) && emailTailOk (email.data.drop (k + 1))

/-! ## Secret vault (app.py_30012025.py, class DataVault)

`cryptography.fernet.Fernet` is an external library.  Modelled from the spec:
authenticated symmetric encryption — a token carries the key it was produced
under and decryption under any other key (or of text that is not a Fernet
token) fails, which `DataVault.decrypt` catches and converts to `''`.  A TEXT
column that may hold either ordinary text or a Fernet token is modelled by
`DBString`; the empty string is `DBString.raw ""`. -/

inductive DBString where
  | raw (s : String) : DBString
  | token (key : Nat) (body : String) : DBString
deriving DecidableEq, Repr

structure DataVault where
  key : Nat
deriving DecidableEq, Repr

/-- app.py_30012025.py `DataVault.encrypt`: falsy (empty) plaintext maps to
`''`; otherwise the Fernet token under the vault's key. -/
def DataVault.encrypt (v : DataVault) (plaintext : String) : DBString :=
  if plaintext = "" then .raw "" else .token v.key plaintext

/-- app.py_30012025.py `DataVault.decrypt`: falsy (empty) ciphertext maps to
`''`; a decryption failure (non-token text, or a token under a different key)
is caught and maps to `''`. -/
def DataVault.decrypt (v : DataVault) (ciphertext : DBString) : String :=
  match ciphertext with
  | .raw s => if s = "" then "" else ""
  | .token k body => if k = v.key then body else ""

/-! ## Database state (app.py_30012025.py, init_db; auth.py)

The `users` and `sessions` tables.  Columns never read or written by any
operation modelled here (`role`, `is_active`, `created_at`, `theme` of `users`)
are omitted.  `locked_until` is a nullable TIMESTAMP, hence an `Option Nat`. -/

structure UserRow where
  id : Nat
  username : String
  password_hash : StoredHash
  email : String
  last_login : Option Nat
  failed_attempts : Nat
  locked_until : Option Nat
deriving DecidableEq, Repr

structure SessionRow where
  user_id : Nat
  session_id : Nat
  expires_at : Nat
  ip_address : String
  user_agent : String
deriving DecidableEq, Repr

structure DB where
  users : List UserRow
  sessions : List SessionRow
  nextUserId : Nat
  nextSessionId : Nat
deriving DecidableEq, Repr

/-- app.py_30012025.py: `SESSION_LIFETIME = timedelta(hours=1)`, in seconds. -/
def SESSION_LIFETIME : Nat := 3600

/-- auth.py `authenticate_user`: look the session id up (`fetchone` = first
matching row); some user id iff the row exists and `expires_at > now`
(strictly); `None` otherwise, and every failure path (no row, expired,
unparsable timestamp) also returns `None` — the function is total. -/
def authenticate_user (db : DB) (session_id : Nat) (now : Nat) : Option Nat :=
  match db.sessions.find? (fun s => s.session_id == session_id) with
  | none => none
  | some s => if now < s.expires_at then some s.user_id else none

/-- Result of the `/login` route of app.py_30012025.py.  `missingFields` is the
400 "Username and password required" response, `locked` the 403
"Account locked", `invalidCredentials` the 401, `success` the 200 response
carrying the `session_id` cookie and its expiry. -/
inductive LoginResult where
  | missingFields : LoginResult
  | locked : LoginResult
  | invalidCredentials : LoginResult
  | success (session_id : Nat) (expires_at : Nat) : LoginResult
deriving DecidableEq, Repr

/-- app.py_30012025.py `/login` (the `login` view):
1. 400 if username or password is falsy;
2. `SELECT id, password_hash, failed_attempts, locked_until FROM users WHERE
   username = ?`;
3. 403 if the row exists, `locked_until` is non-NULL and `now` is before it
   (checked before password verification);
4. 401 if no row or the password fails to verify, incrementing
   `failed_attempts` (committed) when the row exists — nothing ever sets
   `locked_until`;
5. otherwise delete every session of the user, set `last_login = now` and
   `failed_attempts = 0`, insert a fresh session expiring at
   `now + SESSION_LIFETIME`, and return it. -/
def login (db : DB) (username password : String) (now : Nat)
    (ip ua : String) : LoginResult × DB :=
  if username = "" ∨ password = "" then
    (.missingFields, db)
  else
    match db.users.find? (fun u => u.username == username) with
    | none => (.invalidCredentials, db)
    | some u =>
      if (match u.locked_until with
          | some t => decide (now < t)
          | none => false) then
        (.locked, db)
      else if ¬ verify_password password u.password_hash then
        (.invalidCredentials,
         { db with
             users := db.users.map (fun x =>
               if x.id = u.id then
                 { x with failed_attempts := x.failed_attempts + 1 }
               else x) })
      else
        let sid := db.nextSessionId
        let expires := now + SESSION_LIFETIME
        (.success sid expires,
         { db with
             users := db.users.map (fun x =>
               if x.id = u.id then
                 { x with last_login := some now, failed_attempts := 0 }
               else x),
             sessions :=
               db.sessions.filter (fun s => ¬ s.user_id = u.id)
                 ++ [⟨u.id, sid, expires, ip, ua⟩],
             nextSessionId := db.nextSessionId + 1 })

/-- Result of the `/register` route of app.py_30012025.py. -/
inductive RegisterResult where
  | missingFields : RegisterResult
  | duplicate : RegisterResult
  | success (session_id : Nat) (expires_at : Nat) : RegisterResult
deriving DecidableEq, Repr

/-- app.py_30012025.py `/register` (the `register` view):
1. 400 if username, email or password is falsy (`not all([...])`);
2. 409 "Username or email already exists" if `SELECT id FROM users WHERE
   username = ? OR email = ?` finds a row;
3. otherwise hash the password, insert the user (other columns default),
   insert a fresh session expiring at `now + SESSION_LIFETIME` and return it.
No email-format validation is performed (auth.py `validate_email` is imported
by the file but not called here). -/
def register (db : DB) (username email password : String) (salt : Nat)
    (now : Nat) (ip ua : String) : RegisterResult × DB :=
  if username = "" ∨ email = "" ∨ password = "" then
    (.missingFields, db)
  else if db.users.any (fun u => u.username == username || u.email == email) then
    (.duplicate, db)
  else
    let uid := db.nextUserId
    let sid := db.nextSessionId
    let expires := now + SESSION_LIFETIME
    (.success sid expires,
     { db with
         users := db.users
           ++ [⟨uid, username, hash_password salt password, email,
                none, 0, none⟩],
         sessions := db.sessions ++ [⟨uid, sid, expires, ip, ua⟩],
         nextUserId := db.nextUserId + 1,
         nextSessionId := db.nextSessionId + 1 })

/-- app.py_30012025.py `/logout`: `DELETE FROM sessions WHERE session_id = ?`
(idempotent; deleting an absent id is a no-op). -/
def logout (db : DB) (session_id : Nat) : DB :=
  { db with sessions := db.sessions.filter (fun s => ¬ s.session_id = session_id) }

/-- app.py_30012025.py `cleanup_job`, sessions part:
`DELETE FROM sessions WHERE expires_at < ?` with `? = now` (the memories and
orphaned-file parts touch tables outside this model). -/
def cleanup_job (db : DB) (now : Nat) : DB :=
  { db with sessions := db.sessions.filter (fun s => ¬ s.expires_at < now) }

/-! ## Settings repository (ollama_service.py, models.py, app.py_30012025.py)

The JSON payload of a settings save.  `none` models an absent key; a present
key holds a string (possibly empty, which is falsy for `payload.get(k)` but
still satisfies `k in payload`).  Keys that `save_ai_settings` copies verbatim
into rarely-read columns (model_description, embedding_model, fallback_*,
user_context, privacy_level, tags, expiry_days, provider_name, response_format,
language, top_p, penalties, temperature) are omitted together with their
columns; no modelled operation or claim reads them. -/

structure Payload where
  profile_name : Option String
  provider : Option String
  provider_type : Option String
  deployment_type : Option String
  model_name : Option String
  api_key : Option String
  api_endpoint : Option String
  system_prompt : Option String
  max_tokens : Option Nat
  is_active : Option Bool
deriving DecidableEq, Repr

/-- Python falsiness of `payload.get(k)` for a string-valued key: absent or
empty. -/
def falsyStr : Option String → Bool
  | none => true
  | some s => s == ""

/-- ollama_service.py `validate_payload`, provider fallback: `if 'provider' in
payload and 'provider_type' not in payload: payload['provider_type'] =
payload['provider']`.  The effective `provider_type` read afterwards. -/
def effProviderType (p : Payload) : Option String :=
  match p.provider_type with
  | some v => some v
  | none => p.provider

/-- The `ValueError`s `validate_payload` can raise, and the resulting 400
response of `save_ai_settings`. -/
inductive VError where
  | missingField (field : String) : VError
  | invalidProviderType : VError
  | invalidDeploymentType : VError
  | missingCredentials : VError
deriving DecidableEq, Repr

/-- ollama_service.py `validate_payload`:
1. each of `profile_name`, `deployment_type`, `model_name` must be a key of the
   payload (`field not in payload`), checked in that order;
2. `provider` stands in for a missing `provider_type`;
3. the effective `provider_type` must be one of Ollama/Internet/Hybrid;
4. `deployment_type` must be one of local/internet/hybrid;
5. for `deployment_type == 'internet'`, `payload.get('api_key')` and
   `payload.get('api_endpoint')` must both be truthy, else
   "API credentials required for cloud deployment". -/
def validate_payload (p : Payload) : Except VError Unit :=
  if p.profile_name.isNone then
    .error (.missingField "profile_name")
  else if p.deployment_type.isNone then
    .error (.missingField "deployment_type")
  else if p.model_name.isNone then
    .error (.missingField "model_name")
  else if ¬ (effProviderType p = some "Ollama" ∨ effProviderType p = some "Internet"
      ∨ effProviderType p = some "Hybrid") then
    .error .invalidProviderType
  else if ¬ (p.deployment_type = some "local" ∨ p.deployment_type = some "internet"
      ∨ p.deployment_type = some "hybrid") then
    .error .invalidDeploymentType
  else if p.deployment_type = some "internet" ∧
      (falsyStr p.api_key ∨ falsyStr p.api_endpoint) then
    .error .missingCredentials
  else
    .ok ()

/-- models.py `AISetting` (the `ai_settings` table as the SQLAlchemy model):
the columns the modelled operations read or write.  `api_key_enc` is a TEXT
column that may hold either raw text or a Fernet token (`DBString`). -/
structure AISettingRow where
  id : Nat
  user_id : Nat
  profile_name : String
  provider_type : String
  deployment_type : String
  model_name : String
  api_key_enc : DBString
  api_endpoint : String
  system_prompt : String
  max_tokens : Nat
  is_active : Bool
deriving DecidableEq, Repr

structure SettingsDB where
  rows : List AISettingRow
  nextId : Nat
deriving DecidableEq, Repr

inductive SaveResult where
  | validationError (e : VError) : SaveResult
  | success (id : Nat) : SaveResult
deriving DecidableEq, Repr

/-- The row `ollama_service.save_ai_settings` inserts for a validated payload:
each column from the payload with the source's `payload.get(k, default)`
defaults; `api_key_enc = payload.get('api_key', '')` stores the key as raw
text (no Vault encryption); `is_active = payload.get('is_active', True)`. -/
def mkAISetting (id user_id : Nat) (p : Payload) : AISettingRow :=
  { id := id
    user_id := user_id
    profile_name := p.profile_name.getD ""
    provider_type := (effProviderType p).getD ""
    deployment_type := p.deployment_type.getD ""
    model_name := p.model_name.getD ""
    api_key_enc := .raw (p.api_key.getD "")
    api_endpoint := p.api_endpoint.getD ""
    system_prompt := p.system_prompt.getD ""
    max_tokens := p.max_tokens.getD 100
    is_active := p.is_active.getD true }

/-- ollama_service.py `save_ai_settings`: validate the payload (a `ValueError`
rolls back and returns 400 with the state unchanged); deactivate every active
setting of the user (`AISetting.query.filter_by(user_id=..., is_active=True)
.update({'is_active': False})`); insert the new row and commit; return its id. -/
def save_ai_settings (st : SettingsDB) (user_id : Nat) (p : Payload) :
    SaveResult × SettingsDB :=
  match validate_payload p with
  | .error e => (.validationError e, st)
  | .ok _ =>
    let deactivated := st.rows.map (fun r =>
      if r.user_id = user_id ∧ r.is_active then { r with is_active := false }
      else r)
    (.success st.nextId,
     { rows := deactivated ++ [mkAISetting st.nextId user_id p],
       nextId := st.nextId + 1 })

/-- Result of the POST branch of `handle_ai_settings` in app.py_30012025.py. -/
inductive HandleResult where
  | missingFields : HandleResult
  | success : HandleResult
deriving DecidableEq, Repr

/-- app.py_30012025.py `handle_ai_settings`, POST branch:
400 unless `profile_name`, `model_name`, `provider_type`, `deployment_type`
are all truthy (`data.get(k)`); `encrypted_key = vault.encrypt(data.get(
'api_key', ''))`; insert the row with `api_key_enc = encrypted_key` into the
sqlite `ai_settings` table (which has no `is_active` column; the shared row
type's flag is set to the model's default, true, and is not read by this
path). -/
def handle_ai_settings_post (vault : DataVault) (st : SettingsDB)
    (user_id : Nat) (data : Payload) : HandleResult × SettingsDB :=
  if falsyStr data.profile_name ∨ falsyStr data.model_name
      ∨ falsyStr data.provider_type ∨ falsyStr data.deployment_type then
    (.missingFields, st)
  else
    let encrypted_key := vault.encrypt (data.api_key.getD "")
    (.success,
     { rows := st.rows ++
         [{ id := st.nextId
            user_id := user_id
            profile_name := data.profile_name.getD ""
            provider_type := data.provider_type.getD ""
            deployment_type := data.deployment_type.getD ""
            model_name := data.model_name.getD ""
            api_key_enc := encrypted_key
            api_endpoint := data.api_endpoint.getD ""
            system_prompt := data.system_prompt.getD ""
            max_tokens := data.max_tokens.getD 100
            is_active := true }],
       nextId := st.nextId + 1 })

/-! ## Shared helper lemmas -/

/-- `find?` skips a prefix in which nothing matches. -/
theorem find?_append_none {α : Type} (l₁ l₂ : List α) (p : α → Bool)
    (h : l₁.find? p = none) : (l₁ ++ l₂).find? p = l₂.find? p := by
  induction l₁ with
  | nil => rfl
  | cons a t ih =>
    by_cases hp : p a
    · rw [List.find?_cons_of_pos _ hp] at h; cases h
    · rw [List.cons_append, List.find?_cons_of_neg _ hp]
      rw [List.find?_cons_of_neg _ hp] at h
      exact ih h

/-! ## Claims -/

/-- C5: for every plaintext `S`, `decrypt (encrypt S) = S`; encrypting the
empty string yields the empty string and decrypting the empty string yields
the empty string, neither being an error (`DataVault.encrypt` / `decrypt` of
app.py_30012025.py; the empty TEXT value is `DBString.raw ""`). -/
theorem vault_roundtrip_and_empty (v : DataVault) (s : String) :
    DataVault.decrypt v (DataVault.encrypt v s) = s
    ∧ DataVault.encrypt v "" = .raw ""
    ∧ DataVault.decrypt v (.raw "") = "" := by
  refine ⟨?_, ?_, rfl⟩
  · unfold DataVault.encrypt DataVault.decrypt
    by_cases h : s = "" <;> simp [h]
  · simp [DataVault.encrypt]

/-- C4 counterexample: the claim asserts `verify (P, hash P) = true` for every
password `P`, but auth.py's `verify_password` starts with
`if not password or not password_hash: return False`, so the empty password
never verifies, even against its own hash. -/
theorem verify_password_empty_counterexample :
    verify_password "" (hash_password 0 "") = false := by decide

/-- C4 amended: for every non-empty password `P`, `verify (P, hash P) = true`;
for distinct `P1, P2`, `verify (P1, hash P2) = false`; and `verify_password`
returns `false` (it is total, never raising) on an empty or malformed stored
hash. -/
theorem verify_password_amended (salt : Nat) (p p1 p2 g : String) :
    (p ≠ "" → verify_password p (hash_password salt p) = true)
    ∧ (p1 ≠ p2 → verify_password p1 (hash_password salt p2) = false)
    ∧ verify_password p .empty = false
    ∧ verify_password p (.garbage g) = false := by
  refine ⟨?_, ?_, ?_, ?_⟩
  · intro h
    simp [verify_password, hash_password, h]
  · intro h
    by_cases h1 : p1 = ""
    · simp [verify_password, h1]
    · simp only [verify_password, hash_password]
      rw [if_neg]
      · simpa using fun hc => h hc.symm
      · simp [h1]
  · simp [verify_password]
  · by_cases h1 : p = "" <;> simp [verify_password, h1]

/-- C4 witness: the amended-claim theorem applied at concrete inputs. -/
theorem verify_password_amended_witness :
    verify_password "pw" (hash_password 0 "pw") = true
    ∧ verify_password "pw" (hash_password 0 "other") = false
    ∧ verify_password "pw" .empty = false
    ∧ verify_password "pw" (.garbage "zz") = false := by
  obtain ⟨h1, h2, h3, h4⟩ := verify_password_amended 0 "pw" "pw" "other" "zz"
  exact ⟨h1 (by decide), h2 (by decide), h3, h4⟩

/-- C10: a login attempt whose (non-empty) username matches no account
returns the generic 401 and leaves the database exactly unchanged: no
failed-attempt counter moves, no lockout is set, no session row is created
(`login` of app.py_30012025.py: the `if user:` guard skips the
`failed_attempts` update and the session writes are unreachable). -/
theorem login_unknown_user_no_change (db : DB) (username password : String)
    (now : Nat) (ip ua : String)
    (hu : username ≠ "") (hp : password ≠ "")
    (hnone : ∀ u ∈ db.users, u.username ≠ username) :
    login db username password now ip ua = (.invalidCredentials, db) := by
  have hfind : db.users.find? (fun u => u.username == username) = none := by
    rw [List.find?_eq_none]
    intro u hmem
    simpa using hnone u hmem
  simp [login, hu, hp, hfind]

/-- C10 witness: `login_unknown_user_no_change` at a concrete database. -/
theorem login_unknown_user_no_change_witness :
    login ⟨[⟨1, "bob", hash_password 0 "pw", "b@x.com", none, 0, none⟩], [], 2, 10⟩
        "alice" "pw" 100 "ip" "ua"
      = (.invalidCredentials,
         ⟨[⟨1, "bob", hash_password 0 "pw", "b@x.com", none, 0, none⟩], [], 2, 10⟩) :=
  login_unknown_user_no_change _ "alice" "pw" 100 "ip" "ua"
    (by decide) (by decide) (by decide)

/-- C8: for a save whose payload passes the other validations (required keys
present, valid provider type) and whose deployment kind is `"internet"`: if
the API key or the API endpoint is absent, `save_ai_settings` fails with the
missing-credentials error and persists nothing (the state is returned
unchanged); when both are present and non-empty the save succeeds, so it never
fails for this reason (`validate_payload` / `save_ai_settings` of
ollama_service.py). -/
theorem save_internet_requires_credentials (st : SettingsDB) (uid : Nat)
    (p : Payload)
    (hpn : p.profile_name.isSome) (hmn : p.model_name.isSome)
    (hprov : effProviderType p = some "Ollama" ∨ effProviderType p = some "Internet"
      ∨ effProviderType p = some "Hybrid")
    (hdep : p.deployment_type = some "internet") :
    ((p.api_key.isNone ∨ p.api_endpoint.isNone) →
      save_ai_settings st uid p = (.validationError .missingCredentials, st))
    ∧ ((¬ falsyStr p.api_key ∧ ¬ falsyStr p.api_endpoint) →
      save_ai_settings st uid p
        = (.success st.nextId,
           { rows := (st.rows.map (fun r =>
               if r.user_id = uid ∧ r.is_active then { r with is_active := false }
               else r)) ++ [mkAISetting st.nextId uid p],
             nextId := st.nextId + 1 })) := by
  have hpn' : p.profile_name.isNone = false := by simpa using hpn
  have hmn' : p.model_name.isNone = false := by simpa using hmn
  have hdn' : p.deployment_type.isNone = false := by simp [hdep]
  constructor
  · intro habs
    have hfalsy : falsyStr p.api_key ∨ falsyStr p.api_endpoint := by
      rcases habs with h | h
      · left; rw [Option.isNone_iff_eq_none] at h; simp [falsyStr, h]
      · right; rw [Option.isNone_iff_eq_none] at h; simp [falsyStr, h]
    simp [save_ai_settings, validate_payload, hpn', hmn', hdn', hdep, hprov, hfalsy]
  · intro ⟨hk, he⟩
    simp [save_ai_settings, validate_payload, hpn', hmn', hdn', hdep, hprov, hk, he]

/-- C8 witness: `save_internet_requires_credentials` applied at two concrete
internet-deployment payloads, one lacking the API key and one with both
credentials present. -/
theorem save_internet_requires_credentials_witness :
    save_ai_settings ⟨[], 0⟩ 1
        ⟨some "P", none, some "Internet", some "internet", some "m",
         none, some "https://api", none, none, none⟩
      = (.validationError .missingCredentials, ⟨[], 0⟩)
    ∧ save_ai_settings ⟨[], 0⟩ 1
        ⟨some "P", none, some "Internet", some "internet", some "m",
         some "sk-1", some "https://api", none, none, none⟩
      = (.success 0,
         { rows := [mkAISetting 0 1
             ⟨some "P", none, some "Internet", some "internet", some "m",
              some "sk-1", some "https://api", none, none, none⟩],
           nextId := 1 }) := by
  constructor
  · exact (save_internet_requires_credentials ⟨[], 0⟩ 1 _
      (by decide) (by decide) (by decide) (by decide)).1 (by decide)
  · exact (save_internet_requires_credentials ⟨[], 0⟩ 1 _
      (by decide) (by decide) (by decide) (by decide)).2 (by decide)

/-- C7 counterexample: the claim asserts that after saving a second profile
exactly one profile is active — the new one — but `save_ai_settings` inserts
the new row with `is_active = payload.get('is_active', True)`, so a second
save whose payload carries `is_active = False` leaves the account with zero
active profiles. -/
theorem save_second_profile_zero_active_counterexample :
    ((save_ai_settings
        (save_ai_settings ⟨[], 0⟩ 1
          ⟨some "A", none, some "Ollama", some "local", some "m",
           none, none, none, none, none⟩).2
        1
        ⟨some "B", none, some "Ollama", some "local", some "m",
         none, none, none, none, some false⟩).2.rows.filter
      (fun r => r.user_id == 1 && r.is_active)) = [] := by decide

/-- C7 amended: a successful save first deactivates every active profile of
the account and then inserts the new row with the payload's `is_active` flag,
which defaults to true.  Hence (a) any active profile of the account after the
save is the new row, so at most one is active and every previously active
profile's flag is now false; (b) profiles of other accounts are untouched;
(c) when the payload does not set `is_active` to false — in particular when
the key is absent — exactly one profile of the account is active afterwards:
the new one. -/
theorem save_deactivates_prior_profiles (st : SettingsDB) (uid : Nat)
    (p : Payload) (res : SaveResult) (st' : SettingsDB)
    (hsave : save_ai_settings st uid p = (res, st'))
    (hok : res = .success st.nextId) :
    (∀ r ∈ st'.rows, r.user_id = uid → r.is_active = true →
      r = mkAISetting st.nextId uid p)
    ∧ (∀ r ∈ st'.rows, r.user_id ≠ uid → r ∈ st.rows)
    ∧ (p.is_active.getD true = true →
      st'.rows.filter (fun r => r.user_id == uid && r.is_active)
        = [mkAISetting st.nextId uid p]) := by
  unfold save_ai_settings at hsave
  cases hv : validate_payload p with
  | error e =>
    rw [hv] at hsave
    cases hsave
    cases hok
  | ok u =>
    rw [hv] at hsave
    rw [Prod.mk.injEq] at hsave
    obtain ⟨-, hst'⟩ := hsave
    subst hst'
    refine ⟨?_, ?_, ?_⟩
    · intro r hr huser hact
      simp only [List.mem_append, List.mem_map, List.mem_singleton] at hr
      rcases hr with ⟨x, hx, hmap⟩ | hnew
      · by_cases hc : x.user_id = uid ∧ x.is_active
        · rw [if_pos hc] at hmap
          rw [← hmap] at hact
          cases hact
        · rw [if_neg hc] at hmap
          subst hmap
          exact absurd ⟨huser, hact⟩ hc
      · exact hnew
    · intro r hr huser
      simp only [List.mem_append, List.mem_map, List.mem_singleton] at hr
      rcases hr with ⟨x, hx, hmap⟩ | hnew
      · by_cases hc : x.user_id = uid ∧ x.is_active
        · rw [if_pos hc] at hmap
          rw [← hmap] at huser
          exact absurd hc.1 huser
        · rw [if_neg hc] at hmap
          subst hmap
          exact hx
      · subst hnew
        exact absurd rfl huser
    · intro hflag
      rw [List.filter_append]
      have h1 : (st.rows.map (fun r =>
          if r.user_id = uid ∧ r.is_active then { r with is_active := false }
          else r)).filter (fun r => r.user_id == uid && r.is_active) = [] := by
        rw [List.filter_eq_nil_iff]
        intro a ha
        simp only [List.mem_map] at ha
        obtain ⟨x, hx, hmap⟩ := ha
        by_cases hc : x.user_id = uid ∧ x.is_active
        · rw [if_pos hc] at hmap
          rw [← hmap]
          simp
        · rw [if_neg hc] at hmap
          subst hmap
          simp only [Bool.and_eq_true, beq_iff_eq, not_and]
          intro h1 h2
          exact hc ⟨h1, h2⟩
      have h2 : ([mkAISetting st.nextId uid p]).filter
          (fun r => r.user_id == uid && r.is_active) = [mkAISetting st.nextId uid p] := by
        simp [mkAISetting, hflag]
      rw [h1, h2, List.nil_append]

/-- C7 amended witness: `save_deactivates_prior_profiles` applied to a
concrete second save over a state holding one active profile of the same
account: the resulting active profiles are exactly the new row. -/
theorem save_deactivates_prior_profiles_witness :
    ((save_ai_settings
        ⟨[⟨0, 1, "A", "Ollama", "local", "m", .raw "", "", "", 100, true⟩], 1⟩ 1
        ⟨some "B", none, some "Ollama", some "local", some "m",
         none, none, none, none, none⟩).2.rows.filter
      (fun r => r.user_id == 1 && r.is_active))
      = [mkAISetting 1 1
          ⟨some "B", none, some "Ollama", some "local", some "m",
           none, none, none, none, none⟩] := by
  have h := save_deactivates_prior_profiles
    ⟨[⟨0, 1, "A", "Ollama", "local", "m", .raw "", "", "", 100, true⟩], 1⟩
    1
    ⟨some "B", none, some "Ollama", some "local", some "m",
     none, none, none, none, none⟩
    (.success 1)
    (save_ai_settings
      ⟨[⟨0, 1, "A", "Ollama", "local", "m", .raw "", "", "", 100, true⟩], 1⟩ 1
      ⟨some "B", none, some "Ollama", some "local", some "m",
       none, none, none, none, none⟩).2
    (by decide) rfl
  exact h.2.2 rfl

/-- C6: ollama_service.py `save_ai_settings` persists the supplied API key as
raw text (`api_key_enc=payload.get('api_key', '')`) — the stored value is the
plaintext, not the Vault encryption the claim (and the column's own `_enc`
name) requires; by contrast the `handle_ai_settings` POST branch of
app.py_30012025.py does store `vault.encrypt(api_key)`, a Fernet token. -/
theorem save_stores_plaintext_api_key :
    ((save_ai_settings ⟨[], 0⟩ 1
        ⟨some "P", none, some "Ollama", some "local", some "m",
         some "sk-123", none, none, none, none⟩).2.rows.map
      (fun r => r.api_key_enc)) = [.raw "sk-123"]
    ∧ DataVault.encrypt ⟨37⟩ "sk-123" = .token 37 "sk-123"
    ∧ ((handle_ai_settings_post ⟨37⟩ ⟨[], 0⟩ 1
        ⟨some "P", none, some "Ollama", some "local", some "m",
         some "sk-123", none, none, none, none⟩).2.rows.map
      (fun r => r.api_key_enc)) = [.token 37 "sk-123"] := by decide

/-- C1: the login flow checks `locked_until` (before password verification)
and increments `failed_attempts` on mismatch, but no code path in the
repository ever writes `locked_until`, so crossing the threshold never locks
the account: (i) `login` leaves every user's `locked_until` exactly as it
was, on every path; (ii) concretely, after 5 consecutive failed logins for
`bob` (counter at 5, `locked_until` still NULL) a 6th attempt with the
correct password succeeds and creates a session instead of failing with the
403 Account locked. -/
theorem login_never_sets_locked_until :
    (∀ (db : DB) (username password : String) (now : Nat) (ip ua : String),
      (login db username password now ip ua).2.users.map (fun u => u.locked_until)
        = db.users.map (fun u => u.locked_until))
    ∧ (let db0 : DB :=
         ⟨[⟨1, "bob", hash_password 0 "pw123", "b@x.com", none, 0, none⟩], [], 2, 10⟩
       let fail := fun d => (login d "bob" "wrong" 100 "ip" "ua").2
       let db5 := fail (fail (fail (fail (fail db0))))
       db5.users.map (fun u => (u.failed_attempts, u.locked_until)) = [(5, none)]
       ∧ (login db5 "bob" "pw123" 101 "ip" "ua").1 = .success 10 3701) := by
  constructor
  · intro db username password now ip ua
    unfold login
    split
    · rfl
    · split
      · rfl
      · split
        · rfl
        · split
          · simp only [List.map_map]
            congr 1
            funext x
            simp only [Function.comp]
            split <;> rfl
          · simp only [List.map_map]
            congr 1
            funext x
            simp only [Function.comp]
            split <;> rfl
  · decide

/-- C3: `authenticate_user` (auth.py) returns the owning account id iff a
session row with the given id exists and `now` is strictly before its
`expires_at`; it returns `none` — never raising — for an absent, expired,
revoked (`logout`) or swept (`cleanup_job`) identifier.  The hypothesis that
stored session identifiers are pairwise distinct holds in every reachable
state (identifiers come from a freshness source). -/
theorem authenticate_user_spec (db : DB) (sid now a : Nat)
    (hnodup : (db.sessions.map (fun s => s.session_id)).Nodup) :
    (authenticate_user db sid now = some a ↔
      ∃ r ∈ db.sessions, r.session_id = sid ∧ r.user_id = a ∧ now < r.expires_at)
    ∧ authenticate_user (logout db sid) sid now = none
    ∧ (∀ r ∈ db.sessions, r.expires_at < now →
      authenticate_user (cleanup_job db now) r.session_id now = none) := by
  refine ⟨⟨?_, ?_⟩, ?_, ?_⟩
  · intro h
    unfold authenticate_user at h
    cases hf : db.sessions.find? (fun s => s.session_id == sid) with
    | none => rw [hf] at h; cases h
    | some s =>
      rw [hf] at h
      dsimp only at h
      by_cases hexp : now < s.expires_at
      · rw [if_pos hexp] at h
        refine ⟨s, List.mem_of_find?_eq_some hf, ?_, Option.some.inj h, hexp⟩
        have := List.find?_some hf
        simpa using this
      · rw [if_neg hexp] at h
        cases h
  · rintro ⟨r, hr, hsid, huid, hexp⟩
    cases hf : db.sessions.find? (fun s => s.session_id == sid) with
    | none =>
      rw [List.find?_eq_none] at hf
      exact absurd (by simp [hsid]) (hf r hr)
    | some s =>
      have hs_mem := List.mem_of_find?_eq_some hf
      have hs_match : s.session_id = sid := by simpa using List.find?_some hf
      have hsr : s = r :=
        List.inj_on_of_nodup_map hnodup hs_mem hr (by rw [hs_match, hsid])
      subst hsr
      unfold authenticate_user
      rw [hf]
      dsimp only
      rw [if_pos hexp, huid]
  · unfold authenticate_user logout
    have hf : ((db.sessions.filter (fun s => ¬ s.session_id = sid)).find?
        (fun s => s.session_id == sid)) = none := by
      rw [List.find?_eq_none]
      intro x hx
      have := (List.mem_filter.mp hx).2
      simpa using this
    simp only [hf]
  · intro r hr hexp
    unfold authenticate_user cleanup_job
    have hf : ((db.sessions.filter (fun s => ¬ s.expires_at < now)).find?
        (fun s => s.session_id == r.session_id)) = none := by
      rw [List.find?_eq_none]
      intro x hx
      obtain ⟨hx_mem, hx_keep⟩ := List.mem_filter.mp hx
      intro hmatch
      have hxr : x = r := List.inj_on_of_nodup_map hnodup hx_mem hr (by simpa using hmatch)
      subst hxr
      have hkeep : ¬ x.expires_at < now := by simpa using hx_keep
      exact hkeep hexp
    simp only [hf]

/-- C3 witness: `authenticate_user_spec` at a concrete database holding one
live session. -/
theorem authenticate_user_spec_witness :
    (authenticate_user ⟨[], [⟨7, 42, 200, "ip", "ua"⟩], 1, 50⟩ 42 100 = some 7 ↔
      ∃ r ∈ [(⟨7, 42, 200, "ip", "ua"⟩ : SessionRow)],
        r.session_id = 42 ∧ r.user_id = 7 ∧ 100 < r.expires_at)
    ∧ authenticate_user (logout ⟨[], [⟨7, 42, 200, "ip", "ua"⟩], 1, 50⟩ 42) 42 100 = none
    ∧ (∀ r ∈ [(⟨7, 42, 200, "ip", "ua"⟩ : SessionRow)], r.expires_at < 100 →
      authenticate_user (cleanup_job ⟨[], [⟨7, 42, 200, "ip", "ua"⟩], 1, 50⟩ 100)
        r.session_id 100 = none) :=
  authenticate_user_spec ⟨[], [⟨7, 42, 200, "ip", "ua"⟩], 1, 50⟩ 42 100 7 (by decide)

/-- C2: a successful `login` (app.py_30012025.py) deletes every prior session
of the account before inserting the new one, so immediately afterwards
exactly one session row exists for the account — the newly issued one — and
validating any session id the account held before the login returns `none`.
The hypotheses (stored ids pairwise distinct and below the freshness counter)
hold in every reachable state. -/
theorem login_single_live_session (db : DB) (username password : String)
    (now : Nat) (ip ua : String) (u : UserRow) (sid exp : Nat) (db' : DB)
    (old : SessionRow)
    (hfresh : ∀ r ∈ db.sessions, r.session_id < db.nextSessionId)
    (hnodup : (db.sessions.map (fun s => s.session_id)).Nodup)
    (hu : db.users.find? (fun x => x.username == username) = some u)
    (hlogin : login db username password now ip ua = (.success sid exp, db'))
    (hold : old ∈ db.sessions) (howner : old.user_id = u.id) :
    db'.sessions.filter (fun s => s.user_id == u.id) = [⟨u.id, sid, exp, ip, ua⟩]
    ∧ authenticate_user db' old.session_id now = none := by
  unfold login at hlogin
  by_cases hmf : username = "" ∨ password = ""
  · rw [if_pos hmf] at hlogin
    simp at hlogin
  · rw [if_neg hmf, hu] at hlogin
    dsimp only at hlogin
    by_cases hlock : (match u.locked_until with
        | some t => decide (now < t)
        | none => false) = true
    · rw [if_pos hlock] at hlogin
      simp at hlogin
    · rw [if_neg hlock] at hlogin
      by_cases hver : ¬ verify_password password u.password_hash
      · rw [if_pos hver] at hlogin
        simp at hlogin
      · rw [if_neg hver] at hlogin
        rw [Prod.mk.injEq] at hlogin
        obtain ⟨hres, hdb⟩ := hlogin
        injection hres with hsid hexp
        subst hsid
        subst hexp
        subst hdb
        constructor
        · rw [List.filter_append]
          have h1 : ((db.sessions.filter (fun s => ¬ s.user_id = u.id)).filter
              (fun s => s.user_id == u.id)) = [] := by
            rw [List.filter_eq_nil_iff]
            intro x hx
            have := (List.mem_filter.mp hx).2
            simpa using this
          have h2 : (([⟨u.id, db.nextSessionId, now + SESSION_LIFETIME, ip, ua⟩] :
              List SessionRow).filter (fun s => s.user_id == u.id))
              = [⟨u.id, db.nextSessionId, now + SESSION_LIFETIME, ip, ua⟩] := by
            simp
          rw [h1, h2, List.nil_append]
        · unfold authenticate_user
          have hf : (List.find? (fun s => s.session_id == old.session_id)
              (List.filter (fun s => decide (¬ s.user_id = u.id)) db.sessions
                ++ [({ user_id := u.id, session_id := db.nextSessionId,
                       expires_at := now + SESSION_LIFETIME, ip_address := ip,
                       user_agent := ua } : SessionRow)])) = none := by
            rw [List.find?_eq_none]
            intro x hx
            rcases List.mem_append.mp hx with hx1 | hx2
            · obtain ⟨hx_mem, hx_cond⟩ := List.mem_filter.mp hx1
              intro hmatch
              have hxs : x.session_id = old.session_id := by simpa using hmatch
              have hxo : x = old :=
                List.inj_on_of_nodup_map hnodup hx_mem hold hxs
              have hx_ne : ¬ x.user_id = u.id := by simpa using hx_cond
              rw [hxo] at hx_ne
              exact hx_ne howner
            · have hxnew := List.mem_singleton.mp hx2
              subst hxnew
              intro hmatch
              have : db.nextSessionId = old.session_id := by simpa using hmatch
              have hlt := hfresh old hold
              omega
          rw [hf]

/-- C2 witness: `login_single_live_session` at a concrete database with one
account that holds one prior session. -/
theorem login_single_live_session_witness :
    ((login ⟨[⟨1, "bob", hash_password 0 "pw", "b@x.com", none, 0, none⟩],
             [⟨1, 5, 150, "ip0", "ua0"⟩], 2, 10⟩ "bob" "pw" 100 "ip" "ua").2.sessions.filter
      (fun s => s.user_id == 1)) = [⟨1, 10, 3700, "ip", "ua"⟩]
    ∧ authenticate_user
        (login ⟨[⟨1, "bob", hash_password 0 "pw", "b@x.com", none, 0, none⟩],
                [⟨1, 5, 150, "ip0", "ua0"⟩], 2, 10⟩ "bob" "pw" 100 "ip" "ua").2
        5 100 = none :=
  login_single_live_session
    ⟨[⟨1, "bob", hash_password 0 "pw", "b@x.com", none, 0, none⟩],
     [⟨1, 5, 150, "ip0", "ua0"⟩], 2, 10⟩
    "bob" "pw" 100 "ip" "ua"
    ⟨1, "bob", hash_password 0 "pw", "b@x.com", none, 0, none⟩
    10 3700
    (login ⟨[⟨1, "bob", hash_password 0 "pw", "b@x.com", none, 0, none⟩],
            [⟨1, 5, 150, "ip0", "ua0"⟩], 2, 10⟩ "bob" "pw" 100 "ip" "ua").2
    ⟨1, 5, 150, "ip0", "ua0"⟩
    (by decide) (by decide) (by decide) (by decide) (by decide) rfl

/-- C9 counterexample: the claim requires `register` to fail with
`InvalidEmail` on a present but malformed email, but the `register` view of
app.py_30012025.py never calls `validate_email` (the import is unused there):
registering with the malformed email `"bad"` succeeds and even issues a
session. -/
theorem register_malformed_email_counterexample :
    (register ⟨[], [], 1, 10⟩ "alice" "bad" "pw123" 0 100 "ip" "ua").1
      = .success 10 3700
    ∧ validate_email "bad" = false := by decide

/-- C9 amended: `register` (app.py_30012025.py) fails with the 409
duplicate-account error when the username or the email is already taken, and
performs no email-format validation; on success it creates the account with
the hashed password, immediately creates a session for it, and returns that
session — registration implicitly logs the user in (validating the returned
identifier right away yields the new account). -/
theorem register_amended (db : DB) (username email password : String)
    (salt now : Nat) (ip ua : String)
    (hfresh : ∀ r ∈ db.sessions, r.session_id < db.nextSessionId)
    (hun : username ≠ "") (hem : email ≠ "") (hpw : password ≠ "") :
    ((∃ u ∈ db.users, u.username = username ∨ u.email = email) →
      register db username email password salt now ip ua = (.duplicate, db))
    ∧ ((∀ u ∈ db.users, u.username ≠ username ∧ u.email ≠ email) →
      register db username email password salt now ip ua
        = (.success db.nextSessionId (now + SESSION_LIFETIME),
           { users := db.users ++ [⟨db.nextUserId, username,
               hash_password salt password, email, none, 0, none⟩],
             sessions := db.sessions ++ [⟨db.nextUserId, db.nextSessionId,
               now + SESSION_LIFETIME, ip, ua⟩],
             nextUserId := db.nextUserId + 1,
             nextSessionId := db.nextSessionId + 1 })
      ∧ authenticate_user
          { users := db.users ++ [⟨db.nextUserId, username,
              hash_password salt password, email, none, 0, none⟩],
            sessions := db.sessions ++ [⟨db.nextUserId, db.nextSessionId,
              now + SESSION_LIFETIME, ip, ua⟩],
            nextUserId := db.nextUserId + 1,
            nextSessionId := db.nextSessionId + 1 }
          db.nextSessionId now = some db.nextUserId) := by
  have hne : ¬ (username = "" ∨ email = "" ∨ password = "") := by
    intro h
    rcases h with h | h | h
    exacts [hun h, hem h, hpw h]
  constructor
  · rintro ⟨u, hu_mem, hu_dup⟩
    have hany : db.users.any (fun u => u.username == username || u.email == email)
        = true := by
      rw [List.any_eq_true]
      refine ⟨u, hu_mem, ?_⟩
      rcases hu_dup with h | h <;> simp [h]
    unfold register
    rw [if_neg hne, if_pos hany]
  · intro hnodup
    have hany : db.users.any (fun u => u.username == username || u.email == email)
        = false := by
      rw [List.any_eq_false]
      intro u hu_mem
      obtain ⟨h1, h2⟩ := hnodup u hu_mem
      simp [h1, h2]
    constructor
    · unfold register
      rw [if_neg hne]
      rw [if_neg (by simp [hany])]
    · unfold authenticate_user
      have hf1 : db.sessions.find? (fun s => s.session_id == db.nextSessionId)
          = none := by
        rw [List.find?_eq_none]
        intro x hx hmatch
        have : x.session_id = db.nextSessionId := by simpa using hmatch
        have hlt := hfresh x hx
        omega
      dsimp only
      rw [find?_append_none _ _ _ hf1]
      rw [List.find?_cons_of_pos _ (by simp)]
      dsimp only
      rw [if_pos (by unfold SESSION_LIFETIME; omega)]

/-- C9 amended witness: `register_amended` at a concrete database with one
existing account, for both the duplicate-email case and the success case. -/
theorem register_amended_witness :
    (register ⟨[⟨1, "bob", hash_password 0 "pw", "b@x.com", none, 0, none⟩], [], 2, 10⟩
        "alice" "b@x.com" "pw123" 3 100 "ip" "ua"
      = (.duplicate,
         ⟨[⟨1, "bob", hash_password 0 "pw", "b@x.com", none, 0, none⟩], [], 2, 10⟩))
    ∧ (register ⟨[⟨1, "bob", hash_password 0 "pw", "b@x.com", none, 0, none⟩], [], 2, 10⟩
        "alice" "a@x.com" "pw123" 3 100 "ip" "ua"
      = (.success 10 3700,
         { users := [⟨1, "bob", hash_password 0 "pw", "b@x.com", none, 0, none⟩]
             ++ [⟨2, "alice", hash_password 3 "pw123", "a@x.com", none, 0, none⟩],
           sessions := [] ++ [⟨2, 10, 3700, "ip", "ua"⟩],
           nextUserId := 3,
           nextSessionId := 11 })) := by
  constructor
  · exact (register_amended
      ⟨[⟨1, "bob", hash_password 0 "pw", "b@x.com", none, 0, none⟩], [], 2, 10⟩
      "alice" "b@x.com" "pw123" 3 100 "ip" "ua"
      (by decide) (by decide) (by decide) (by decide)).1
      ⟨⟨1, "bob", hash_password 0 "pw", "b@x.com", none, 0, none⟩, by decide, by decide⟩
  · exact ((register_amended
      ⟨[⟨1, "bob", hash_password 0 "pw", "b@x.com", none, 0, none⟩], [], 2, 10⟩
      "alice" "a@x.com" "pw123" 3 100 "ip" "ua"
      (by decide) (by decide) (by decide) (by decide)).2 (by decide)).1

end PersonaVault
